import Mathlib

/-!
# Verification of the novu-framework Python SDK

A shallow embedding of `src/novu_framework` (workflow registry, step
execution engine, AST-based step introspection, and the FastAPI/Flask
adapter response builders) together with theorems settling the frozen
claims about the specification.

Python dictionaries with string keys are modelled as association lists
(`List (String × Value)`) with CPython insertion semantics; Python values
that flow through the step engine and the HTTP response bodies are
modelled by the inductive `Value` type below.  `inspect.getsource` and
`ast.parse` are reflective operations on the Python process itself; they
are modelled abstractly by attaching to every handler a `HandlerSource`
describing what retrieval and parsing of its source would yield.
-/

/-- JSON-ish Python value: the payloads, step results and response bodies
that the SDK manipulates. Dicts are association lists in insertion order,
mirroring CPython dict semantics. -/
inductive Value where
  | vNull : Value
  | vBool : Bool → Value
  | vInt : Int → Value
  | vStr : String → Value
  | vList : List Value → Value
  | vDict : List (String × Value) → Value
  deriving Repr

/-- Python truthiness for the values above (`if controls:`, `if should_skip:`):
`None`, `False`, `0`, `""`, `[]` and `{}` are falsy. -/
def Value.truthy : Value → Bool
  | .vNull => false
  | .vBool b => b
  | .vInt n => n != 0
  | .vStr s => s ≠ ""
  | .vList xs => !xs.isEmpty
  | .vDict xs => !xs.isEmpty

/-- Step metadata record appended to `Workflow.steps` by
`StepHandler._execute_step` (`{"step_id": ..., "type": ...}`). -/
structure StepMeta where
  step_id : String
  type : String
  deriving Repr, DecidableEq

section StepEngine

/-- Outcome of calling a Python callable: a value, a `TypeError`
(whether from an arity mismatch or raised in the body — the `except
TypeError` handlers in `_execute_step` cannot tell them apart), or any
other exception. -/
inductive CallResult where
  | ok : Value → CallResult
  | typeError : CallResult
  | raised : String → CallResult
  deriving Repr

/-- A step resolver as accepted by `StepHandler._execute_step`: either a
plain dict, a callable (modelled by its behaviour when invoked with one
positional argument and with no arguments), or any other non-callable
value (used as the result directly, per `result = resolver`). -/
inductive Resolver where
  | dict : List (String × Value) → Resolver
  | callable : (Value → CallResult) → CallResult → Resolver
  | otherValue : Value → Resolver

/-- The `skip` entry of the options dict: absent, a non-callable value, or
a callable returning a (truthiness-checked) value. -/
inductive SkipOpt where
  | absent : SkipOpt
  | nonCallable : Value → SkipOpt
  | callablePred : Value → SkipOpt

/-- The options of a step invocation (`**options` of `_execute_step`):
the `skip` entry and the `controls` entry (`options.get("controls", {})`). -/
structure StepOptions where
  skip : SkipOpt := .absent
  controls : Value := .vDict []

/-- The mutable state a `StepHandler` touches during one trigger: its own
fields (`payload`, `step_results`, `executed_steps`) and the `steps` list
of the workflow object it references (`self.workflow.steps`), or `none`
when constructed without a workflow. -/
structure StepState where
  payload : Value
  step_results : List (String × Value)
  executed_steps : List String
  workflow_steps : Option (List StepMeta)

/-- CPython dict assignment `d[k] = v`: overwrite in place when the key
exists, else append. -/
def dictInsert (d : List (String × Value)) (k : String) (v : Value) :
    List (String × Value) :=
  if (d.lookup k).isSome then
    d.map fun p => if p.1 = k then (k, v) else p
  else d ++ [(k, v)]

/-- The resolver-invocation part of `_execute_step` (workflow.py lines
44-75): a dict resolver is used as-is; a callable resolver goes through
the arity-probing chain — with non-empty controls, try
`resolver(controls)`, on `TypeError` try `resolver()`, on a further
`TypeError` call `resolver(payload)`; with absent/empty controls, try
`resolver()` and on `TypeError` call `resolver(payload)`. The final
fallback is not wrapped, so its exceptions propagate. -/
def resolveResult (payload : Value) (controls : Value) : Resolver → CallResult
  | .dict d => .ok (.vDict d)
  | .otherValue v => .ok v
  | .callable callWith callNone =>
    if controls.truthy then
      match callWith controls with
      | .ok v => .ok v
      | .raised m => .raised m
      | .typeError =>
        match callNone with
        | .ok v => .ok v
        | .raised m => .raised m
        | .typeError => callWith payload
    else
      match callNone with
      | .ok v => .ok v
      | .raised m => .raised m
      | .typeError => callWith payload

/-- `StepHandler._execute_step` (workflow.py lines 24-90): skip check,
resolver invocation, result/step bookkeeping and the side write to
`self.workflow.steps`. Returns the step result and the updated state, or
the propagated exception. `step_class_name` is `step_class.__name__`. -/
def execute_step (step_class_name : String) (step_id : String)
    (resolver : Resolver) (options : StepOptions) (s : StepState) :
    CallResult × StepState :=
  let skipNow :=
    match options.skip with
    | .callablePred r => r.truthy
    | _ => false
  if skipNow then
    let skipped : Value := .vDict [("skipped", .vBool true)]
    (.ok skipped, { s with step_results := dictInsert s.step_results step_id skipped })
  else
    match resolveResult s.payload options.controls resolver with
    | .typeError => (.typeError, s)
    | .raised m => (.raised m, s)
    | .ok result =>
      let ws :=
        match s.workflow_steps with
        | none => none
        | some steps =>
          if step_id ∈ steps.map StepMeta.step_id then some steps
          else some (steps ++ [{ step_id := step_id, type := step_class_name }])
      (.ok result,
       { s with step_results := dictInsert s.step_results step_id result,
                executed_steps := s.executed_steps ++ [step_id],
                workflow_steps := ws })

/-- One step invocation appearing in a workflow handler: which
`StepHandler` method is called (`in_app`/`email`/`sms`/`push`, giving the
step class whose `__name__` is recorded) plus its arguments. -/
structure StepInvocation where
  step_class_name : String
  step_id : String
  resolver : Resolver
  options : StepOptions

/-- A workflow handler body, modelled as the sequence of step-method
calls it performs on the `StepHandler` it receives (the engine runs them
in declaration order). A raising step aborts the run, propagating the
exception — `Workflow.trigger` has no handler for it. -/
def runSteps : List StepInvocation → StepState → Except String StepState
  | [], s => .ok s
  | inv :: rest, s =>
    match execute_step inv.step_class_name inv.step_id inv.resolver inv.options s with
    | (.ok _, s') => runSteps rest s'
    | (.typeError, _) => .error "TypeError"
    | (.raised m, _) => .error m

/-- A payload schema (Pydantic model class): validation either produces
the validated payload object or raises. -/
def PayloadSchema := Value → Except String Value

/-- `Workflow` (workflow.py lines 156-172). The handler is represented by
the sequence of step calls its body makes. -/
structure Workflow where
  workflow_id : String
  handler : List StepInvocation
  payload_schema : Option PayloadSchema
  name : String
  steps : List StepMeta

/-- The dictionary returned by a successful `Workflow.trigger`
(workflow.py lines 204-209), as a Python dict literal in key order. -/
def triggerResultDict (workflow_id : String)
    (step_results : List (String × Value)) (payload : Value) :
    List (String × Value) :=
  [("workflow_id", .vStr workflow_id),
   ("status", .vStr "completed"),
   ("step_results", .vDict step_results),
   ("payload", payload)]

/-- The payload-validation phase of `Workflow.trigger` (workflow.py lines
184-191): with no schema the raw payload passes through, otherwise the
schema is applied and its errors re-raised. -/
def validate_payload (w : Workflow) (payload : Value) : Except String Value :=
  match w.payload_schema with
  | none => .ok payload
  | some schema => schema payload

/-- `StepHandler(payload, workflow=self)` (workflow.py lines 18-22, 194):
the fresh per-trigger state, referencing the workflow's `steps` list.
Note the handler state holds the raw payload, not the validated one. -/
def initStepState (w : Workflow) (payload : Value) : StepState :=
  { payload := payload, step_results := [], executed_steps := [],
    workflow_steps := some w.steps }

/-- `Workflow.trigger` (workflow.py lines 174-209): validate the payload
against the schema if one is set (re-raising validation errors), run the
handler on a fresh `StepHandler(payload, workflow=self)`, and return the
result dictionary. Also returns the workflow object as it stands after
the run (its `steps` list may have been written to via the handler's
back-reference). The `to` recipient argument is unused by the engine. -/
def Workflow.trigger (w : Workflow) (_to : Value) (payload : Value) :
    Except String (List (String × Value) × Workflow) := do
  let _validated ← validate_payload w payload
  let s' ← runSteps w.handler (initStepState w payload)
  pure (triggerResultDict w.workflow_id s'.step_results payload,
        { w with steps := s'.workflow_steps.getD w.steps })

end StepEngine

section Registry

/-- `WorkflowRegistry` (workflow.py lines 212-240): a process-wide dict
from workflow id to workflow, modelled as an association list in
insertion order. -/
structure WorkflowRegistry where
  workflows : List (String × Workflow)

/-- `WorkflowRegistry.register` (workflow.py lines 220-228): raises
`ValueError` when the id is already a key, else inserts. -/
def WorkflowRegistry.register (r : WorkflowRegistry) (w : Workflow) :
    Except String WorkflowRegistry :=
  if (r.workflows.lookup w.workflow_id).isSome then
    .error ("Workflow with ID '" ++ w.workflow_id ++ "' already exists")
  else
    .ok ⟨r.workflows ++ [(w.workflow_id, w)]⟩

/-- `WorkflowRegistry.get` (workflow.py lines 230-234). -/
def WorkflowRegistry.get (r : WorkflowRegistry) (workflow_id : String) :
    Option Workflow :=
  r.workflows.lookup workflow_id

end Registry

/-- `lookup` on a one-entry association list with a different key. -/
theorem lookup_single_ne {β : Type} {a k : String} {w : β} (h : a ≠ k) :
    List.lookup a [(k, w)] = none := by
  simp [List.lookup_cons, beq_false_of_ne h]

/-- A key occurring among an association list's keys has a `some` lookup. -/
theorem lookup_isSome_of_mem_keys {β : Type} {a : String} {l : List (String × β)}
    (h : a ∈ l.map Prod.fst) : (l.lookup a).isSome := by
  induction l with
  | nil => simp at h
  | cons p t ih =>
    obtain ⟨k, v⟩ := p
    by_cases hk : a = k
    · subst hk
      simp [List.lookup_cons]
    · simp only [List.map_cons, List.mem_cons, hk, false_or] at h
      simpa [List.lookup_cons, beq_false_of_ne hk] using ih h

/-- C1: `register` raises exactly when the id is already registered;
on that error the previously registered workflow stays bound to the id;
on success the workflow is added under its id, other bindings are
untouched, and key uniqueness is preserved by every call. -/
theorem register_unique_ids (r : WorkflowRegistry) (w : Workflow)
    (hnodup : (r.workflows.map Prod.fst).Nodup) :
    ((∃ e, r.register w = .error e) ↔ (r.get w.workflow_id).isSome) ∧
    (∀ e, r.register w = .error e →
      ∃ w0, r.get w.workflow_id = some w0) ∧
    (∀ r', r.register w = .ok r' →
      r'.get w.workflow_id = some w ∧
      (r'.workflows.map Prod.fst).Nodup ∧
      ∀ id, id ≠ w.workflow_id → r'.get id = r.get id) := by
  have herr : (∃ e, r.register w = .error e) ↔ (r.get w.workflow_id).isSome := by
    unfold WorkflowRegistry.register WorkflowRegistry.get
    by_cases h : (r.workflows.lookup w.workflow_id).isSome
    · simp [h]
    · simp [h]
  refine ⟨herr, ?_, ?_⟩
  · intro e he
    have := herr.mp ⟨e, he⟩
    exact Option.isSome_iff_exists.mp this
  · intro r' hok
    unfold WorkflowRegistry.register at hok
    by_cases h : (r.workflows.lookup w.workflow_id).isSome
    · simp [h] at hok
    · simp [h] at hok
      subst hok
      rw [Option.not_isSome_iff_eq_none] at h
      refine ⟨?_, ?_, ?_⟩
      · show List.lookup _ _ = _
        rw [List.lookup_append, h]
        simp [List.lookup]
      · simp only [List.map_append, List.map_cons, List.map_nil]
        rw [List.nodup_append]
        refine ⟨hnodup, List.nodup_singleton _, ?_⟩
        intro a ha hb
        simp only [List.mem_cons, List.not_mem_nil, or_false] at hb
        subst hb
        have := lookup_isSome_of_mem_keys ha
        rw [h] at this
        simp at this
      · intro id hne
        show List.lookup _ _ = _
        rw [List.lookup_append, lookup_single_ne hne]
        cases hcase : List.lookup id r.workflows with
        | some v => simp [WorkflowRegistry.get, hcase]
        | none => simp [WorkflowRegistry.get, hcase]

/-- Witness for C1 at a concrete registry and workflow. -/
theorem register_unique_ids_witness :
    (([( "a", { workflow_id := "a", handler := [], payload_schema := none,
                name := "a", steps := [] } )] :
        List (String × Workflow)).map Prod.fst).Nodup ∧
    ((∃ e, WorkflowRegistry.register ⟨[("a",
        { workflow_id := "a", handler := [], payload_schema := none,
          name := "a", steps := [] })]⟩
        { workflow_id := "b", handler := [], payload_schema := none,
          name := "b", steps := [] } = .error e) ↔
      (WorkflowRegistry.get ⟨[("a",
        { workflow_id := "a", handler := [], payload_schema := none,
          name := "a", steps := [] })]⟩ "b").isSome) := by
  constructor
  · simp
  · exact (register_unique_ids ⟨[("a",
      { workflow_id := "a", handler := [], payload_schema := none,
        name := "a", steps := [] })]⟩
      { workflow_id := "b", handler := [], payload_schema := none,
        name := "b", steps := [] } (by simp)).1

/-- Replacing every entry of key `k` makes `lookup k` find the new value. -/
theorem lookup_replaceAll (d : List (String × Value)) (k : String) (v : Value)
    (h : (d.lookup k).isSome) :
    (d.map fun p => if p.1 = k then (k, v) else p).lookup k = some v := by
  induction d with
  | nil => simp [List.lookup] at h
  | cons p t ih =>
    obtain ⟨a, b⟩ := p
    by_cases hk : a = k
    · subst hk
      simp [List.lookup_cons]
    · have hk' : k ≠ a := fun he => hk he.symm
      rw [List.lookup_cons, beq_false_of_ne hk'] at h
      simp only [List.map_cons, if_neg hk]
      rw [List.lookup_cons, beq_false_of_ne hk']
      exact ih (by simpa using h)

/-- A dict write `d[k] = v` makes a subsequent `d[k]` read return `v`. -/
theorem lookup_dictInsert (d : List (String × Value)) (k : String) (v : Value) :
    (dictInsert d k v).lookup k = some v := by
  unfold dictInsert
  by_cases h : (d.lookup k).isSome
  · rw [if_pos h]
    exact lookup_replaceAll d k v h
  · rw [if_neg h, List.lookup_append, Option.not_isSome_iff_eq_none.mp h]
    simp [List.lookup_cons]

/-- C2: when payload validation succeeds and the handler's step sequence
runs without raising, `Workflow.trigger` returns a dictionary with exactly
the keys `workflow_id`, `status`, `step_results`, `payload`, bound to the
workflow's id, `"completed"`, the step handler's accumulated results map,
and the input payload. -/
theorem trigger_result_shape (w : Workflow) (recipient payload vp : Value)
    (s' : StepState)
    (hval : validate_payload w payload = .ok vp)
    (hrun : runSteps w.handler (initStepState w payload) = .ok s') :
    ∃ d w', w.trigger recipient payload = .ok (d, w') ∧
      d.map Prod.fst = ["workflow_id", "status", "step_results", "payload"] ∧
      d.lookup "workflow_id" = some (.vStr w.workflow_id) ∧
      d.lookup "status" = some (.vStr "completed") ∧
      d.lookup "step_results" = some (.vDict s'.step_results) ∧
      d.lookup "payload" = some payload := by
  have htrig : w.trigger recipient payload =
      .ok (triggerResultDict w.workflow_id s'.step_results payload,
           { w with steps := s'.workflow_steps.getD w.steps }) := by
    unfold Workflow.trigger
    rw [hval, hrun]
    rfl
  refine ⟨_, _, htrig, rfl, ?_, ?_, ?_, ?_⟩ <;> rfl

/-- Concrete workflow for the C2 witness: a single e-mail step whose
resolver is a plain dict. -/
def c2wf : Workflow :=
  { workflow_id := "wf-c2",
    handler := [{ step_class_name := "EmailStep", step_id := "s1",
                  resolver := .dict [("subject", .vStr "hi")],
                  options := {} }],
    payload_schema := none, name := "wf-c2", steps := [] }

/-- End state of running `c2wf`'s handler on an empty payload. -/
def c2end : StepState :=
  { payload := .vDict [], step_results := [("s1", .vDict [("subject", .vStr "hi")])],
    executed_steps := ["s1"],
    workflow_steps := some [{ step_id := "s1", type := "EmailStep" }] }

/-- Witness for C2 at the concrete workflow `c2wf`. -/
theorem trigger_result_shape_witness :
    validate_payload c2wf (.vDict []) = .ok (.vDict []) ∧
    runSteps c2wf.handler (initStepState c2wf (.vDict [])) = .ok c2end ∧
    (∃ d w', c2wf.trigger (.vStr "alice") (.vDict []) = .ok (d, w') ∧
      d.map Prod.fst = ["workflow_id", "status", "step_results", "payload"] ∧
      d.lookup "workflow_id" = some (.vStr c2wf.workflow_id) ∧
      d.lookup "status" = some (.vStr "completed") ∧
      d.lookup "step_results" = some (.vDict c2end.step_results) ∧
      d.lookup "payload" = some (.vDict [])) :=
  ⟨rfl, rfl, trigger_result_shape c2wf (.vStr "alice") (.vDict []) (.vDict [])
    c2end rfl rfl⟩

/-- Identity callable used in the C3 counterexample: calling it with any
single argument succeeds and returns that argument. -/
def c3call : Value → CallResult := fun v => .ok v

/-- C3 counterexample resolver: accepts one positional argument (returning
it) and raises `TypeError` when called with no arguments. -/
def c3resolver : Resolver := .callable c3call .typeError

/-- C3 counterexample state: a recognisable payload, no controls option. -/
def c3state : StepState :=
  { payload := .vStr "the-payload", step_results := [], executed_steps := [],
    workflow_steps := none }

/-- C3 is false as stated: with no (or empty) `controls` the code never
tries the resolver with the controls argument. Here calling the resolver
with the default controls `{}` would succeed and return `{}` (the claim's
predicted result), but the code stores the payload instead: it goes
straight to the no-argument call, hits `TypeError`, and falls back to
`resolver(payload)`. -/
theorem step_arity_counterexample :
    (execute_step "EmailStep" "s1" c3resolver {} c3state).1 =
      .ok (.vStr "the-payload") ∧
    c3call (.vDict []) = .ok (.vDict []) ∧
    Value.vStr "the-payload" ≠ Value.vDict [] :=
  ⟨rfl, rfl, fun h => Value.noConfusion h⟩

/-- C3 amended: the probing chain starts with the controls argument only
when the `controls` option is present and truthy (non-empty); otherwise it
starts at the no-argument call. Within a chain the first call not raising
`TypeError` supplies the stored step result, and the final fallback call
`resolver(payload)` is unguarded. -/
theorem step_arity_probing (cn sid : String) (f : Value → CallResult)
    (n : CallResult) (opts : StepOptions) (s : StepState)
    (hskip : (match opts.skip with
              | .callablePred r => r.truthy
              | _ => false) = false) :
    (∀ v, resolveResult s.payload opts.controls (.callable f n) = .ok v →
      (execute_step cn sid (.callable f n) opts s).1 = .ok v ∧
      (execute_step cn sid (.callable f n) opts s).2.step_results.lookup sid =
        some v) ∧
    (opts.controls.truthy = true → ∀ v, f opts.controls = .ok v →
      resolveResult s.payload opts.controls (.callable f n) = .ok v) ∧
    (opts.controls.truthy = true → f opts.controls = .typeError →
      ∀ v, n = .ok v →
      resolveResult s.payload opts.controls (.callable f n) = .ok v) ∧
    (opts.controls.truthy = true → f opts.controls = .typeError →
      n = .typeError →
      resolveResult s.payload opts.controls (.callable f n) = f s.payload) ∧
    (opts.controls.truthy = false →
      (∀ v, n = .ok v →
        resolveResult s.payload opts.controls (.callable f n) = .ok v) ∧
      (n = .typeError →
        resolveResult s.payload opts.controls (.callable f n) = f s.payload)) := by
  refine ⟨?_, ?_, ?_, ?_, ?_⟩
  · intro v hres
    simp [execute_step, hskip, hres, lookup_dictInsert]
  · intro ht v hf
    simp [resolveResult, ht, hf]
  · intro ht hf v hn
    simp [resolveResult, ht, hf, hn]
  · intro ht hf hn
    simp [resolveResult, ht, hf, hn]
  · intro ht
    constructor
    · intro v hn
      simp [resolveResult, ht, hn]
    · intro hn
      simp [resolveResult, ht, hn]

/-- Witness for the amended C3 at a concrete step execution (non-empty
controls succeed on the first probe). -/
theorem step_arity_probing_witness :
    ((match (StepOptions.mk .absent (.vDict [("c", .vInt 1)])).skip with
      | .callablePred r => r.truthy
      | _ => false) = false) ∧
    ((StepOptions.mk .absent (.vDict [("c", .vInt 1)])).controls.truthy = true →
      ∀ v, c3call (StepOptions.mk .absent (.vDict [("c", .vInt 1)])).controls = .ok v →
      resolveResult c3state.payload
        (StepOptions.mk .absent (.vDict [("c", .vInt 1)])).controls
        (.callable c3call .typeError) = .ok v) :=
  ⟨rfl, (step_arity_probing "EmailStep" "s1" c3call .typeError
    (StepOptions.mk .absent (.vDict [("c", .vInt 1)])) c3state rfl).2.1⟩

/-- C4: a callable skip predicate returning a truthy value makes
`_execute_step` record `{"skipped": true}` under the step id and return it
without consulting the resolver — any resolver yields the identical
outcome, `executed_steps` and the workflow's steps list are untouched. -/
theorem skip_short_circuit (cn sid : String) (res : Resolver)
    (opts : StepOptions) (s : StepState) (r : Value)
    (hskip : opts.skip = .callablePred r) (htruthy : r.truthy = true) :
    execute_step cn sid res opts s =
      (.ok (.vDict [("skipped", .vBool true)]),
       { s with step_results :=
           dictInsert s.step_results sid (.vDict [("skipped", .vBool true)]) }) ∧
    (execute_step cn sid res opts s).2.step_results.lookup sid =
      some (.vDict [("skipped", .vBool true)]) ∧
    (∀ res', execute_step cn sid res' opts s = execute_step cn sid res opts s) := by
  have hexec : ∀ res' : Resolver, execute_step cn sid res' opts s =
      (.ok (.vDict [("skipped", .vBool true)]),
       { s with step_results :=
           dictInsert s.step_results sid (.vDict [("skipped", .vBool true)]) }) := by
    intro res'
    simp [execute_step, hskip, htruthy]
  refine ⟨hexec res, ?_, fun res' => (hexec res').trans (hexec res).symm⟩
  rw [hexec res]
  exact lookup_dictInsert _ _ _

/-- Witness for C4 at a concrete step execution. -/
theorem skip_short_circuit_witness :
    (StepOptions.mk (.callablePred (.vBool true)) (.vDict [])).skip =
      .callablePred (.vBool true) ∧
    Value.truthy (.vBool true) = true ∧
    execute_step "SmsStep" "s9" (.dict [("x", .vInt 7)])
        (StepOptions.mk (.callablePred (.vBool true)) (.vDict [])) c3state =
      (.ok (.vDict [("skipped", .vBool true)]),
       { c3state with step_results := (dictInsert c3state.step_results "s9"
           (.vDict [("skipped", .vBool true)])) }) :=
  ⟨rfl, rfl, (skip_short_circuit "SmsStep" "s9" (.dict [("x", .vInt 7)])
    (StepOptions.mk (.callablePred (.vBool true)) (.vDict [])) c3state
    (.vBool true) rfl rfl).1⟩

/-- A single `_execute_step` leaves the payload alone and can only append
to the workflow's observed-steps list. -/
theorem execute_step_frame (cn sid : String) (res : Resolver)
    (opts : StepOptions) (s : StepState) :
    (execute_step cn sid res opts s).2.payload = s.payload ∧
    ∀ l, s.workflow_steps = some l →
      ∃ extra, (execute_step cn sid res opts s).2.workflow_steps =
        some (l ++ extra) := by
  by_cases hskip : (match opts.skip with
      | SkipOpt.callablePred r => r.truthy
      | _ => false) = true
  · refine ⟨by simp [execute_step, hskip], fun l hl => ⟨[], ?_⟩⟩
    simp [execute_step, hskip, hl]
  · rw [Bool.not_eq_true] at hskip
    cases hres : resolveResult s.payload opts.controls res with
    | typeError =>
      refine ⟨by simp [execute_step, hskip, hres], fun l hl => ⟨[], ?_⟩⟩
      simp [execute_step, hskip, hres, hl]
    | raised m =>
      refine ⟨by simp [execute_step, hskip, hres], fun l hl => ⟨[], ?_⟩⟩
      simp [execute_step, hskip, hres, hl]
    | ok v =>
      refine ⟨by simp [execute_step, hskip, hres], fun l hl => ?_⟩
      by_cases hmem : ∃ a ∈ l, a.step_id = sid
      · exact ⟨[], by simp [execute_step, hskip, hres, hl, List.mem_map, hmem]⟩
      · exact ⟨[{ step_id := sid, type := cn }],
          by simp [execute_step, hskip, hres, hl, List.mem_map, hmem]⟩

/-- A whole handler run leaves the payload alone and only appends to the
workflow's observed-steps list. -/
theorem runSteps_frame (invs : List StepInvocation) :
    ∀ s s' : StepState, runSteps invs s = .ok s' →
    s'.payload = s.payload ∧
    ∀ l, s.workflow_steps = some l →
      ∃ extra, s'.workflow_steps = some (l ++ extra) := by
  induction invs with
  | nil =>
    intro s s' h
    cases h
    exact ⟨rfl, fun l hl => ⟨[], by simp [hl]⟩⟩
  | cons inv rest ih =>
    intro s s' h
    unfold runSteps at h
    split at h
    · rename_i heq
      obtain ⟨hp1, hw1⟩ := execute_step_frame inv.step_class_name inv.step_id
        inv.resolver inv.options s
      rw [heq] at hp1 hw1
      obtain ⟨hp2, hw2⟩ := ih _ _ h
      refine ⟨hp2.trans hp1, fun l hl => ?_⟩
      obtain ⟨e1, he1⟩ := hw1 l hl
      obtain ⟨e2, he2⟩ := hw2 _ he1
      exact ⟨e1 ++ e2, by simp [he2]⟩
    · exact absurd h (by simp)
    · exact absurd h (by simp)

/-- Concrete workflow for the C8 counterexample: one e-mail step, empty
observed-steps list at decoration time. -/
def c8wf : Workflow :=
  { workflow_id := "wf-c8",
    handler := [{ step_class_name := "EmailStep", step_id := "s1",
                  resolver := .dict [("subject", .vStr "hi")],
                  options := {} }],
    payload_schema := none, name := "wf-c8", steps := [] }

/-- C8 is false as stated: executing a trigger writes to the registered
workflow object. Registering `c8wf` succeeds, yet a single trigger run
appends the observed step to its (previously empty) `steps` field. -/
theorem trigger_mutates_steps_counterexample :
    (WorkflowRegistry.mk []).register c8wf = .ok ⟨[("wf-c8", c8wf)]⟩ ∧
    (c8wf.trigger (.vStr "bob") (.vDict [])).map (fun p => p.2.steps) =
      .ok [{ step_id := "s1", type := "EmailStep" }] ∧
    c8wf.steps = [] ∧
    ([{ step_id := "s1", type := "EmailStep" }] : List StepMeta) ≠ [] :=
  ⟨rfl, rfl, rfl, by simp⟩

/-- C8 amended: a trigger run never touches the registry and never writes
the workflow's `workflow_id`, `handler`, `payload_schema` or `name`; the
one exception is the `steps` list, to which step execution appends a
metadata record for each executed step id not already present. -/
theorem trigger_frame (w : Workflow) (recipient payload : Value)
    (d : List (String × Value)) (w' : Workflow)
    (h : w.trigger recipient payload = .ok (d, w')) :
    w'.workflow_id = w.workflow_id ∧ w'.handler = w.handler ∧
    w'.payload_schema = w.payload_schema ∧ w'.name = w.name ∧
    ∃ extra, w'.steps = w.steps ++ extra := by
  unfold Workflow.trigger at h
  cases hv : validate_payload w payload with
  | error e => rw [hv] at h; exact absurd h (by simp [Bind.bind, Except.bind])
  | ok vp =>
    rw [hv] at h
    cases hr : runSteps w.handler (initStepState w payload) with
    | error e => rw [hr] at h; exact absurd h (by simp [Bind.bind, Except.bind])
    | ok s' =>
      rw [hr] at h
      simp only [Bind.bind, Except.bind, pure, Except.pure, Except.ok.injEq,
        Prod.mk.injEq] at h
      obtain ⟨hd, hw⟩ := h
      obtain ⟨hp, hsteps⟩ := runSteps_frame w.handler _ _ hr
      obtain ⟨extra, he⟩ := hsteps w.steps rfl
      refine ⟨?_, ?_, ?_, ?_, extra, ?_⟩ <;> (rw [← hw]; try simp [he])

/-- Witness for the amended C8 at the concrete workflow `c8wf`. -/
theorem trigger_frame_witness :
    c8wf.trigger (.vStr "bob") (.vDict []) =
      .ok (triggerResultDict "wf-c8"
             [("s1", .vDict [("subject", .vStr "hi")])] (.vDict []),
           { c8wf with steps := [{ step_id := "s1", type := "EmailStep" }] }) ∧
    ({ c8wf with steps := [{ step_id := "s1", type := "EmailStep" }] } :
        Workflow).workflow_id = c8wf.workflow_id ∧
    (∃ extra, ({ c8wf with
        steps := [{ step_id := "s1", type := "EmailStep" }] } :
          Workflow).steps = c8wf.steps ++ extra) := by
  have happ := trigger_frame c8wf (.vStr "bob") (.vDict [])
    (triggerResultDict "wf-c8" [("s1", .vDict [("subject", .vStr "hi")])]
      (.vDict []))
    { c8wf with steps := [{ step_id := "s1", type := "EmailStep" }] } rfl
  exact ⟨rfl, happ.1, happ.2.2.2.2⟩

section Introspection

/-- The fragment of the Python AST that the step walkers inspect:
`ast.Call` (func, args), `ast.Attribute` (value, attr), `ast.Name` (id),
string constants, and a generic container node covering every other
compound node (function bodies, expression statements, ...) through which
`ast.walk` descends. -/
inductive PyExpr where
  | call : PyExpr → List PyExpr → PyExpr
  | attributeOf : PyExpr → String → PyExpr
  | name : String → PyExpr
  | constStr : String → PyExpr
  | block : List PyExpr → PyExpr
  deriving Repr

mutual

/-- Node count of a tree, used as the termination measure of the walker. -/
def PyExpr.size : PyExpr → Nat
  | .call f args => 1 + PyExpr.size f + PyExpr.sizeList args
  | .attributeOf v _ => 1 + PyExpr.size v
  | .name _ => 1
  | .constStr _ => 1
  | .block xs => 1 + PyExpr.sizeList xs

/-- Node count of a forest. -/
def PyExpr.sizeList : List PyExpr → Nat
  | [] => 0
  | e :: es => PyExpr.size e + PyExpr.sizeList es

end

/-- The child nodes of an AST node, in field order (as
`ast.iter_child_nodes` yields them). -/
def PyExpr.children : PyExpr → List PyExpr
  | .call f args => f :: args
  | .attributeOf v _ => [v]
  | .name _ => []
  | .constStr _ => []
  | .block xs => xs

theorem sizeList_eq_sum (l : List PyExpr) :
    PyExpr.sizeList l = (l.map PyExpr.size).sum := by
  induction l with
  | nil => rfl
  | cons e es ih => simp [PyExpr.sizeList, ih]

theorem children_size_lt (e : PyExpr) :
    PyExpr.sizeList e.children < e.size := by
  cases e <;> simp [PyExpr.children, PyExpr.size, PyExpr.sizeList]

theorem sizeList_queue_lt (e : PyExpr) (rest : List PyExpr) :
    PyExpr.sizeList (rest ++ e.children) < PyExpr.sizeList (e :: rest) := by
  have h := children_size_lt e
  have h2 : PyExpr.sizeList (rest ++ e.children) =
      PyExpr.sizeList rest + PyExpr.sizeList e.children := by
    simp [sizeList_eq_sum]
  simp only [PyExpr.sizeList]
  omega

/-- `ast.walk`'s breadth-first queue loop: pop the head, yield it, push
its children at the back. -/
def walkAux (q : List PyExpr) : List PyExpr :=
  match q with
  | [] => []
  | e :: rest => e :: walkAux (rest ++ e.children)
termination_by PyExpr.sizeList q
decreasing_by
  exact sizeList_queue_lt _ _

/-- `ast.walk(tree)`: every node of the tree in breadth-first order. -/
def PyExpr.walk (t : PyExpr) : List PyExpr := walkAux [t]

/-- The pattern both walkers match (common.py lines 48-54 and 162-168):
a `Call` whose func is an `Attribute` on the bare `Name` `step` with an
attr drawn from the given set. -/
def isStepCall (types : List String) : PyExpr → Bool
  | .call (.attributeOf (.name id) attr) _ => id == "step" && types.contains attr
  | _ => false

/-- `node.func.attr` of a matched step call. -/
def stepAttr : PyExpr → String
  | .call (.attributeOf _ attr) _ => attr
  | _ => ""

/-- The attr set of `count_steps_in_workflow` (common.py line 53, also
fastapi.py line 59 and flask.py line 74). -/
def countStepTypes : List String := ["in_app", "email", "sms", "push"]

/-- The attr set of the step extractors (common.py line 167, fastapi.py
line 245, flask.py line 330) — it additionally matches `chat`. -/
def extractStepTypes : List String := ["in_app", "email", "sms", "push", "chat"]

/-- The matched step calls of a handler tree, in walk order. -/
def matchedCalls (types : List String) (t : PyExpr) : List PyExpr :=
  t.walk.filter (isStepCall types)

/-- What `ast.parse` yields on the cleaned handler source: a tree, or a
`SyntaxError`. -/
inductive ParseOutcome where
  | tree : PyExpr → ParseOutcome
  | syntaxError : ParseOutcome

/-- Abstraction of the reflective pipeline `inspect.getsource` +
decorator-stripping/dedent + `ast.parse` applied to a workflow handler
(common.py lines 27-44): either the source text is retrieved (with the
parse outcome of its cleaned form attached), or retrieval raises
`OSError` or `TypeError`. -/
inductive HandlerSource where
  | available : String → ParseOutcome → HandlerSource
  | osError : HandlerSource
  | typeError : HandlerSource

/-- A workflow as the introspection endpoints see it: only its handler's
retrievable source matters to them. -/
structure IntroWorkflow where
  source : HandlerSource

/-- The walked nodes of a workflow's parsed handler source (empty when
retrieval or parsing fails). -/
def introWalk (w : IntroWorkflow) : List PyExpr :=
  match w.source with
  | .available _ (.tree t) => t.walk
  | _ => []

/-- The `{"type": "object", "properties": {}, "required": [],
"additionalProperties": false}` placeholder JSON schema. -/
def emptyObjectSchema : Value :=
  .vDict [("type", .vStr "object"), ("properties", .vDict []),
          ("required", .vList []), ("additionalProperties", .vBool false)]

/-- A `{"schema": ..., "unknownSchema": {}}` block. -/
def schemaBlock : Value :=
  .vDict [("schema", emptyObjectSchema), ("unknownSchema", .vDict [])]

/-- The step-detail dict built per matched call (common.py lines 177-210,
fastapi.py lines 255-288, flask.py lines 340-373); only the synthesized
`code` string differs between the three copies, so it is a parameter. -/
def mkStepDetail (code sid ty : String) : Value :=
  .vDict [("step_id", .vStr sid), ("type", .vStr ty),
          ("controls", schemaBlock), ("outputs", schemaBlock),
          ("results", schemaBlock), ("code", .vStr code),
          ("options", .vDict []), ("providers", .vList [.vStr ty])]

/-- The fallback source used whenever `inspect.getsource` fails:
`f"# Workflow {workflow_id}\ndef handler(payload):\n    pass"`. -/
def fallback_code (workflow_id : String) : String :=
  "# Workflow " ++ workflow_id ++ "\ndef handler(payload):\n    pass"

/-- The handler source text, or the fallback (used by the code action and
the discover detail, which retrieve but never parse). -/
def workflowCode (workflow_id : String) (w : IntroWorkflow) : String :=
  match w.source with
  | .available text _ => text
  | _ => fallback_code workflow_id

end Introspection

section Adapters

/-- `SDK_VERSION = __version__` (constants.py): the package version
string, defined in the package root outside the analysed sources; both
adapters reference this single shared constant and no claim depends on
its concrete value. -/
def SDK_VERSION : String := "0.1.0"

/-- `FRAMEWORK_VERSION` (constants.py). -/
def FRAMEWORK_VERSION : String := "2024-06-26"

namespace Common

/-- `count_steps_in_workflow` (common.py lines 24-59): walk the parsed
handler source counting `step.{in_app,email,sms,push}(...)` calls; any
`OSError`/`TypeError`/`SyntaxError` yields 0. -/
def count_steps_in_workflow (w : IntroWorkflow) : Nat :=
  match w.source with
  | .available _ (.tree t) => (matchedCalls countStepTypes t).length
  | _ => 0

/-- The synthesized per-step code string of common.py line 174 (and
fastapi.py line 252): `step.{type}('{id}', () => {})`. -/
def step_code (ty sid : String) : String :=
  "step." ++ ty ++ "('" ++ sid ++ "', () => \x7b\x7d)"

/-- `extract_workflow_steps` (common.py lines 136-215): walk the parsed
handler source and build, per matched `step.<type>(...)` call (the set
additionally matching `chat`), a detail dict with a positional synthetic
id `step-<n>`; any `OSError`/`TypeError`/`SyntaxError` yields `[]`. -/
def extract_workflow_steps (w : IntroWorkflow) : List Value :=
  match w.source with
  | .available _ (.tree t) =>
    (matchedCalls extractStepTypes t).enum.map fun p =>
      mkStepDetail (step_code (stepAttr p.2) ("step-" ++ toString (p.1 + 1)))
        ("step-" ++ toString (p.1 + 1)) (stepAttr p.2)
  | _ => []

/-- `handle_code` (common.py lines 91-107): `ValidationError` on an empty
id, `NotFoundError` on an unknown id, otherwise the handler's source text
with the fallback placeholder replacing it when retrieval raises
`OSError`/`TypeError` (this action never parses the source). The
`CodeResponse.model_dump` step yields `{"code": ...}`. -/
def handle_code (m : List (String × IntroWorkflow)) (workflow_id : String) :
    Except String Value :=
  if workflow_id = "" then
    .error "workflow_id is required for this action"
  else
    match m.lookup workflow_id with
    | none => .error ("Workflow '" ++ workflow_id ++ "' not found")
    | some w => .ok (.vDict [("code", .vStr (workflowCode workflow_id w))])

/-- `handle_health_check` (common.py lines 62-75), after the
`HealthCheckResponse.model_dump(by_alias=True)` serialization
(validation/api.py lines 129-147). -/
def handle_health_check (m : List (String × IntroWorkflow)) : Value :=
  .vDict [("status", .vStr "ok"), ("sdkVersion", .vStr SDK_VERSION),
          ("frameworkVersion", .vStr FRAMEWORK_VERSION),
          ("discovered", .vDict
            [("workflows", .vInt m.length),
             ("steps", .vInt
               (m.map fun p => (count_steps_in_workflow p.2 : Int)).sum)])]

end Common

/-- The `model_dump(by_alias=True)` serialization of a `WorkflowStep`
(validation/api.py lines 63-75): the `step_id` field is emitted under its
serialization alias `stepId`; every other field keeps its name. -/
def dump_workflow_step : Value → Value
  | .vDict kvs =>
    .vDict (kvs.map fun p => if p.1 = "step_id" then ("stepId", p.2) else p)
  | v => v

/-- The `model_dump(by_alias=True)` serialization of a `WorkflowDetail`
(validation/api.py lines 92-104): `workflow_id` is emitted as
`workflowId` and the step records are dumped elementwise. -/
def dump_workflow_detail : Value → Value
  | .vDict kvs =>
    .vDict (kvs.map fun p =>
      if p.1 = "workflow_id" then ("workflowId", p.2)
      else if p.1 = "steps" then
        match p.2 with
        | .vList ss => ("steps", .vList (ss.map dump_workflow_step))
        | v => ("steps", v)
      else p)
  | v => v

namespace Fastapi

/-- `count_steps_in_workflow` (fastapi.py lines 30-65) — a verbatim copy
of the common.py function. -/
def count_steps_in_workflow (w : IntroWorkflow) : Nat :=
  match w.source with
  | .available _ (.tree t) => (matchedCalls countStepTypes t).length
  | _ => 0

/-- The synthesized per-step code string of fastapi.py line 252. -/
def step_code (ty sid : String) : String :=
  "step." ++ ty ++ "('" ++ sid ++ "', () => \x7b\x7d)"

/-- `_extract_workflow_steps` (fastapi.py lines 211-293) — a verbatim
copy of common.py's extractor. -/
def extract_workflow_steps (w : IntroWorkflow) : List Value :=
  match w.source with
  | .available _ (.tree t) =>
    (matchedCalls extractStepTypes t).enum.map fun p =>
      mkStepDetail (step_code (stepAttr p.2) ("step-" ++ toString (p.1 + 1)))
        ("step-" ++ toString (p.1 + 1)) (stepAttr p.2)
  | _ => []

/-- `_extract_workflow_details` (fastapi.py lines 183-208): the raw
workflow-detail dict (tags and preferences read via `getattr` with
defaults `[]`/`{}`; `Workflow` defines neither attribute). -/
def extract_workflow_details (workflow_id : String) (w : IntroWorkflow) :
    Value :=
  .vDict [("workflow_id", .vStr workflow_id), ("severity", .vStr "none"),
          ("steps", .vList (extract_workflow_steps w)),
          ("code", .vStr (workflowCode workflow_id w)),
          ("payload", .vDict [("schema", emptyObjectSchema),
                              ("unknownSchema", .vDict [])]),
          ("controls", .vDict [("schema", emptyObjectSchema),
                               ("unknownSchema", .vDict [])]),
          ("tags", .vList []), ("preferences", .vDict [])]

/-- `_handle_discover` (fastapi.py lines 170-180) after the
`DiscoverResponse.model_dump(by_alias=True)` serialization. -/
def handle_discover (m : List (String × IntroWorkflow)) : Value :=
  .vDict [("workflows", .vList (m.map fun p =>
    dump_workflow_detail (extract_workflow_details p.1 p.2)))]

/-- `_handle_health_check` (fastapi.py lines 154-167) after
serialization. -/
def handle_health_check (m : List (String × IntroWorkflow)) : Value :=
  .vDict [("status", .vStr "ok"), ("sdkVersion", .vStr SDK_VERSION),
          ("frameworkVersion", .vStr FRAMEWORK_VERSION),
          ("discovered", .vDict
            [("workflows", .vInt m.length),
             ("steps", .vInt
               (m.map fun p => (count_steps_in_workflow p.2 : Int)).sum)])]

end Fastapi

namespace Flask

/-- `count_steps_in_workflow` (flask.py lines 41-80) — a verbatim copy of
the common.py function. -/
def count_steps_in_workflow (w : IntroWorkflow) : Nat :=
  match w.source with
  | .available _ (.tree t) => (matchedCalls countStepTypes t).length
  | _ => 0

/-- The synthesized per-step code string of flask.py line 337 — unlike
the common.py/fastapi.py copies it lacks the trailing `)`. -/
def step_code (ty sid : String) : String :=
  "step." ++ ty ++ "('" ++ sid ++ "', () => \x7b\x7d"

/-- `_extract_workflow_steps_flask` (flask.py lines 297-378) — identical
to the fastapi.py extractor except for the synthesized code string. -/
def extract_workflow_steps (w : IntroWorkflow) : List Value :=
  match w.source with
  | .available _ (.tree t) =>
    (matchedCalls extractStepTypes t).enum.map fun p =>
      mkStepDetail (step_code (stepAttr p.2) ("step-" ++ toString (p.1 + 1)))
        ("step-" ++ toString (p.1 + 1)) (stepAttr p.2)
  | _ => []

/-- `_extract_workflow_details_flask` (flask.py lines 264-294). -/
def extract_workflow_details (workflow_id : String) (w : IntroWorkflow) :
    Value :=
  .vDict [("workflow_id", .vStr workflow_id), ("severity", .vStr "none"),
          ("steps", .vList (extract_workflow_steps w)),
          ("code", .vStr (workflowCode workflow_id w)),
          ("payload", .vDict [("schema", emptyObjectSchema),
                              ("unknownSchema", .vDict [])]),
          ("controls", .vDict [("schema", emptyObjectSchema),
                               ("unknownSchema", .vDict [])]),
          ("tags", .vList []), ("preferences", .vDict [])]

/-- `_handle_discover_flask` (flask.py lines 229-239) after
serialization. -/
def handle_discover (m : List (String × IntroWorkflow)) : Value :=
  .vDict [("workflows", .vList (m.map fun p =>
    dump_workflow_detail (extract_workflow_details p.1 p.2)))]

/-- `_handle_health_check_flask` (flask.py lines 213-226) after
serialization. -/
def handle_health_check (m : List (String × IntroWorkflow)) : Value :=
  .vDict [("status", .vStr "ok"), ("sdkVersion", .vStr SDK_VERSION),
          ("frameworkVersion", .vStr FRAMEWORK_VERSION),
          ("discovered", .vDict
            [("workflows", .vInt m.length),
             ("steps", .vInt
               (m.map fun p => (count_steps_in_workflow p.2 : Int)).sum)])]

end Flask

end Adapters

section ErrorHandling

/-- The `NovuError` subclasses (error_handling.py lines 26-44). -/
inductive NovuKind where
  | validation : NovuKind
  | notFound : NovuKind
  | internal : NovuKind
  deriving Repr, DecidableEq

/-- The status code each `NovuError` subclass fixes in its constructor:
`ValidationError` 400, `NotFoundError` 404, `InternalError` 500. -/
def novuStatus : NovuKind → Int
  | .validation => 400
  | .notFound => 404
  | .internal => 500

/-- `error.__class__.__name__` for each `NovuError` subclass. -/
def novuTypeName : NovuKind → String
  | .validation => "ValidationError"
  | .notFound => "NotFoundError"
  | .internal => "InternalError"

/-- The exceptions `handle_error` distinguishes (error_handling.py lines
62-82): a `NovuError` (kind, message, details dict), an `HTTPException`,
a `ValueError`, or anything else. -/
inductive PyException where
  | novu : NovuKind → String → List (String × Value) → PyException
  | httpException : Int → String → PyException
  | valueError : String → PyException
  | other : String → PyException

/-- `handle_error` (error_handling.py lines 47-82): the error-response
dict. For a `NovuError` the `**error.details` spread merges the details
into the literal with dict-update semantics. -/
def handle_error : PyException → List (String × Value)
  | .novu k msg details =>
    details.foldl (fun d p => dictInsert d p.1 p.2)
      [("detail", .vStr msg), ("status_code", .vInt (novuStatus k)),
       ("type", .vStr (novuTypeName k))]
  | .httpException sc d =>
    [("detail", .vStr d), ("status_code", .vInt sc),
     ("type", .vStr "HTTPException")]
  | .valueError m =>
    [("detail", .vStr m), ("status_code", .vInt 400),
     ("type", .vStr "ValueError")]
  | .other _ =>
    [("detail", .vStr "Internal server error"), ("status_code", .vInt 500),
     ("type", .vStr "InternalServerError")]

/-- `error_response["status_code"]` as read by both adapters' error
paths. -/
def errorStatus (er : List (String × Value)) : Int :=
  match er.lookup "status_code" with
  | some (.vInt n) => n
  | _ => 0

/-- The Flask GET error path (flask.py lines 134-145):
`jsonify(error_response)` makes the whole `handle_error` dict the
response body, paired with its `status_code`. -/
def flask_get_error_response (e : PyException) : Value × Int :=
  (.vDict (handle_error e), errorStatus (handle_error e))

/-- The FastAPI GET error path (fastapi.py lines 117-128): the handler
re-raises `HTTPException(status_code=..., detail=error_response["detail"])`,
which FastAPI renders as the body `{"detail": <detail>}`. -/
def fastapi_get_error_response (e : PyException) : Value × Int :=
  (.vDict [("detail", ((handle_error e).lookup "detail").getD .vNull)],
   errorStatus (handle_error e))

end ErrorHandling

section FixupAndExamples

/-- Appends the `)` missing from flask.py's synthesized step code to a
string value. -/
def appendParen : Value → Value
  | .vStr s => .vStr (s ++ ")")
  | v => v

/-- Rewrites a step record's `code` entry with the trailing `)` added. -/
def fixFlaskStep : Value → Value
  | .vDict kvs =>
    .vDict (kvs.map fun p => if p.1 = "code" then ("code", appendParen p.2) else p)
  | v => v

/-- Rewrites every step record inside a dumped workflow detail. -/
def fixFlaskDetail : Value → Value
  | .vDict kvs =>
    .vDict (kvs.map fun p =>
      if p.1 = "steps" then
        match p.2 with
        | .vList ss => ("steps", .vList (ss.map fixFlaskStep))
        | v => ("steps", v)
      else p)
  | v => v

/-- Rewrites every workflow detail inside a dumped discover response. -/
def fixFlaskDiscover : Value → Value
  | .vDict kvs =>
    .vDict (kvs.map fun p =>
      if p.1 = "workflows" then
        match p.2 with
        | .vList ws => ("workflows", .vList (ws.map fixFlaskDetail))
        | v => ("workflows", v)
      else p)
  | v => v

/-- The `step_id` entry of a raw step record. -/
def stepRecordId (v : Value) : String :=
  match v with
  | .vDict kvs =>
    match kvs.lookup "step_id" with
    | some (.vStr s) => s
    | _ => ""
  | _ => ""

/-- The `type` entry of a raw step record. -/
def stepRecordType (v : Value) : String :=
  match v with
  | .vDict kvs =>
    match kvs.lookup "type" with
    | some (.vStr s) => s
    | _ => ""
  | _ => ""

mutual

/-- Applies a substitution to every string literal of a handler tree
while leaving the program structure (calls, attributes, names) intact:
the formal counterpart of rewriting the `step_id` string arguments in the
handler's source. -/
def renameStr (sub : String → String) : PyExpr → PyExpr
  | .call f args => .call (renameStr sub f) (renameStrList sub args)
  | .attributeOf v a => .attributeOf (renameStr sub v) a
  | .name id => .name id
  | .constStr s => .constStr (sub s)
  | .block xs => .block (renameStrList sub xs)

/-- `renameStr` over a forest. -/
def renameStrList (sub : String → String) : List PyExpr → List PyExpr
  | [] => []
  | e :: es => renameStr sub e :: renameStrList sub es

end

/-- Applies the string-literal substitution to the parsed handler source
of a workflow. -/
def renameWorkflow (sub : String → String) (w : IntroWorkflow) :
    IntroWorkflow :=
  match w.source with
  | .available text (.tree t) => ⟨.available text (.tree (renameStr sub t))⟩
  | s => ⟨s⟩

/-- The handler AST of the C5 counterexample: one `step.email(...)` call
with a string-literal step id, under a function-body container. -/
def c5tree : PyExpr :=
  .block [.call (.attributeOf (.name "step") "email")
            [.constStr "welcome-email", .name "resolver"]]

/-- The C5 counterexample workflow: its handler source is retrievable and
parses to `c5tree`. -/
def c5wf : IntroWorkflow :=
  ⟨.available "def handler(payload, step):\n    step.email('welcome-email', resolver)\n" (.tree c5tree)⟩

/-- The C5 counterexample workflow map. -/
def c5map : List (String × IntroWorkflow) := [("newsletter", c5wf)]

/-- The `code` string of the first step record of the first workflow of a
discover response. -/
def firstStepCode (v : Value) : String :=
  match v with
  | .vDict kvs =>
    match kvs.lookup "workflows" with
    | some (.vList (w :: _)) =>
      match w with
      | .vDict wkvs =>
        match wkvs.lookup "steps" with
        | some (.vList (s :: _)) =>
          match s with
          | .vDict skvs =>
            match skvs.lookup "code" with
            | some (.vStr c) => c
            | _ => ""
          | _ => ""
        | _ => ""
      | _ => ""
    | _ => ""
  | _ => ""

/-- The handler AST of the C6 counterexample: a single `step.chat(...)`
call — matched by the extractor but not by the counter. -/
def c6tree : PyExpr :=
  .block [.call (.attributeOf (.name "step") "chat") [.constStr "chat-step"]]

/-- The C6 counterexample workflow. -/
def c6wf : IntroWorkflow :=
  ⟨.available "def handler(payload, step):\n    step.chat('chat-step', resolver)\n" (.tree c6tree)⟩

/-- The C9 counterexample workflow: retrievable but unparsable source. -/
def c9wf : IntroWorkflow := ⟨.available "def handler(:\n" .syntaxError⟩

/-- An unretrievable-source workflow for the C9 witness. -/
def c9os : IntroWorkflow := ⟨.osError⟩

end FixupAndExamples

/-- C9 is false as stated for the `SyntaxError` case of `handle_code`:
`c9wf`'s source is retrievable but unparsable, so `count`/`extract`
swallow the `SyntaxError`, but `handle_code` — which never parses —
returns the raw retrieved text, not the fallback placeholder. -/
theorem handle_code_syntax_counterexample :
    Common.count_steps_in_workflow c9wf = 0 ∧
    Common.extract_workflow_steps c9wf = [] ∧
    Common.handle_code [("broken", c9wf)] "broken" =
      .ok (.vDict [("code", .vStr "def handler(:\n")]) ∧
    "def handler(:\n" ≠ fallback_code "broken" := by
  refine ⟨rfl, rfl, ?_, by decide⟩
  simp [Common.handle_code, c9wf, workflowCode, List.lookup]

/-- C9 amended: `count_steps_in_workflow` and `extract_workflow_steps`
swallow all three introspection failures (`OSError`, `TypeError`,
`SyntaxError`) and return 0 resp. `[]`; `handle_code` never parses, so it
swallows exactly the retrieval failures (`OSError`, `TypeError`) with the
fallback placeholder and returns the retrieved text otherwise. -/
theorem introspection_failures_swallowed (m : List (String × IntroWorkflow))
    (wid : String) (w : IntroWorkflow)
    (hw : m.lookup wid = some w) (hne : wid ≠ "") :
    ((w.source = .osError ∨ w.source = .typeError) →
      Common.count_steps_in_workflow w = 0 ∧
      Common.extract_workflow_steps w = [] ∧
      Common.handle_code m wid =
        .ok (.vDict [("code", .vStr (fallback_code wid))])) ∧
    (∀ text, w.source = .available text .syntaxError →
      Common.count_steps_in_workflow w = 0 ∧
      Common.extract_workflow_steps w = [] ∧
      Common.handle_code m wid = .ok (.vDict [("code", .vStr text)])) := by
  constructor
  · rintro (h | h) <;>
      exact ⟨by simp [Common.count_steps_in_workflow, h],
             by simp [Common.extract_workflow_steps, h],
             by simp [Common.handle_code, hne, hw, workflowCode, h]⟩
  · intro text h
    exact ⟨by simp [Common.count_steps_in_workflow, h],
           by simp [Common.extract_workflow_steps, h],
           by simp [Common.handle_code, hne, hw, workflowCode, h]⟩

/-- Witness for C9 at a concrete one-entry workflow map whose workflow
has unretrievable source. -/
theorem introspection_failures_swallowed_witness :
    (([("w", c9os)] : List (String × IntroWorkflow)).lookup "w" = some c9os) ∧
    ("w" : String) ≠ "" ∧
    (c9os.source = .osError ∨ c9os.source = .typeError) ∧
    (Common.count_steps_in_workflow c9os = 0 ∧
     Common.extract_workflow_steps c9os = [] ∧
     Common.handle_code [("w", c9os)] "w" =
       .ok (.vDict [("code", .vStr (fallback_code "w"))])) := by
  refine ⟨by simp [List.lookup], by decide, Or.inl rfl, ?_⟩
  exact (introspection_failures_swallowed [("w", c9os)] "w" c9os
    (by simp [List.lookup]) (by decide)).1 (Or.inl rfl)

/-- C7 is false as stated: on the Flask GET path the whole `handle_error`
dict becomes the body, so an unknown-workflow error carries
`status_code` and `type` entries besides `detail`. -/
theorem error_body_extra_keys_counterexample :
    (flask_get_error_response
       (.novu .notFound "Workflow 'missing' not found" [])).1 =
      .vDict [("detail", .vStr "Workflow 'missing' not found"),
              ("status_code", .vInt 404), ("type", .vStr "NotFoundError")] ∧
    (flask_get_error_response
       (.novu .notFound "Workflow 'missing' not found" [])).2 = 404 ∧
    Value.vDict [("detail", .vStr "Workflow 'missing' not found"),
                 ("status_code", .vInt 404), ("type", .vStr "NotFoundError")] ≠
      Value.vDict [("detail", .vStr "Workflow 'missing' not found")] := by
  refine ⟨rfl, rfl, fun h => ?_⟩
  simp at h

/-- C7 amended: every error response carries `detail` bound to the
message, with status 400/404/500 fixed by the `NovuError` subclass; the
FastAPI GET path re-raises an `HTTPException`, whose rendered body is
exactly `{"detail": ...}`, while the Flask GET path serialises the whole
`handle_error` dict, adding `status_code` and `type` entries. -/
theorem error_response_format (k : NovuKind) (msg : String) :
    handle_error (.novu k msg []) =
      [("detail", .vStr msg), ("status_code", .vInt (novuStatus k)),
       ("type", .vStr (novuTypeName k))] ∧
    novuStatus .validation = 400 ∧ novuStatus .notFound = 404 ∧
    novuStatus .internal = 500 ∧
    fastapi_get_error_response (.novu k msg []) =
      (.vDict [("detail", .vStr msg)], novuStatus k) ∧
    flask_get_error_response (.novu k msg []) =
      (.vDict [("detail", .vStr msg), ("status_code", .vInt (novuStatus k)),
               ("type", .vStr (novuTypeName k))], novuStatus k) := by
  refine ⟨rfl, rfl, rfl, rfl, ?_, ?_⟩
  · simp [fastapi_get_error_response, handle_error, errorStatus, List.lookup]
  · simp [flask_get_error_response, handle_error, errorStatus, List.lookup]

/-- Appending the missing `)` turns flask.py's synthesized step code into
fastapi.py's. -/
theorem step_code_fixed (ty sid : String) :
    Flask.step_code ty sid ++ ")" = Fastapi.step_code ty sid := by
  simp [Flask.step_code, Fastapi.step_code, String.append_assoc]

/-- Fixing a dumped Flask step record yields the dumped FastAPI record. -/
theorem fix_step_record (sid ty : String) :
    fixFlaskStep (dump_workflow_step (mkStepDetail (Flask.step_code ty sid) sid ty)) =
      dump_workflow_step (mkStepDetail (Fastapi.step_code ty sid) sid ty) := by
  simp [fixFlaskStep, dump_workflow_step, mkStepDetail, appendParen,
        step_code_fixed]

/-- Fixing the dumped Flask step list of any workflow yields the dumped
FastAPI step list. -/
theorem fix_steps_list (w : IntroWorkflow) :
    (Flask.extract_workflow_steps w).map (fun s => fixFlaskStep (dump_workflow_step s)) =
      (Fastapi.extract_workflow_steps w).map dump_workflow_step := by
  cases hs : w.source with
  | osError => simp [Flask.extract_workflow_steps, Fastapi.extract_workflow_steps, hs]
  | typeError => simp [Flask.extract_workflow_steps, Fastapi.extract_workflow_steps, hs]
  | available text p =>
    cases p with
    | syntaxError =>
      simp [Flask.extract_workflow_steps, Fastapi.extract_workflow_steps, hs]
    | tree t =>
      simp only [Flask.extract_workflow_steps, Fastapi.extract_workflow_steps,
        hs, List.map_map]
      refine List.map_eq_map_iff.mpr fun p _ => ?_
      exact fix_step_record ("step-" ++ toString (p.1 + 1)) (stepAttr p.2)

/-- Fixing a dumped Flask workflow detail yields the dumped FastAPI
workflow detail. -/
theorem fix_workflow_detail (wid : String) (w : IntroWorkflow) :
    fixFlaskDetail (dump_workflow_detail (Flask.extract_workflow_details wid w)) =
      dump_workflow_detail (Fastapi.extract_workflow_details wid w) := by
  simp only [Flask.extract_workflow_details, Fastapi.extract_workflow_details,
    dump_workflow_detail, fixFlaskDetail, List.map_cons, List.map_nil]
  simpa [Function.comp_def] using fix_steps_list w

/-- C5 amended: the two adapters' health-check bodies are equal for every
workflow map, and their discover bodies agree except for the synthesized
step code strings, where the Flask copy omits the trailing `)` —
appending it (`fixFlaskDiscover`) makes the bodies equal. -/
theorem adapters_introspection_agree (m : List (String × IntroWorkflow)) :
    Fastapi.handle_health_check m = Flask.handle_health_check m ∧
    fixFlaskDiscover (Flask.handle_discover m) = Fastapi.handle_discover m := by
  refine ⟨rfl, ?_⟩
  simp only [Flask.handle_discover, Fastapi.handle_discover, fixFlaskDiscover,
    List.map_cons, List.map_nil, List.map_map]
  simp only [↓reduceIte]
  rw [List.map_eq_map_iff.mpr fun p _ => fix_workflow_detail p.1 p.2]

/-- `toString` on the literal index 1, for evaluating synthesized step
ids in concrete runs. -/
theorem toString_one : toString (1 : Nat) = "1" := rfl

set_option maxRecDepth 4000 in
/-- C5 is false as stated: on a map with one single-email-step workflow
the health-check bodies agree but the discover bodies differ — the two
synthesized step code strings differ by the trailing `)`. -/
theorem discover_adapters_counterexample :
    Fastapi.handle_health_check c5map = Flask.handle_health_check c5map ∧
    firstStepCode (Fastapi.handle_discover c5map) =
      "step.email('step-1', () => \x7b\x7d)" ∧
    firstStepCode (Flask.handle_discover c5map) =
      "step.email('step-1', () => \x7b\x7d" ∧
    Fastapi.handle_discover c5map ≠ Flask.handle_discover c5map := by
  have hcode : workflowCode "newsletter" c5wf =
      "def handler(payload, step):\n    step.email('welcome-email', resolver)\n" := by
    simp [workflowCode, c5wf]
  have hfs : Fastapi.extract_workflow_steps c5wf =
      [mkStepDetail "step.email('step-1', () => \x7b\x7d)" "step-1" "email"] := by
    simp [Fastapi.extract_workflow_steps, Fastapi.step_code, matchedCalls,
      PyExpr.walk, walkAux.eq_def, PyExpr.children, isStepCall, stepAttr,
      extractStepTypes, c5wf, c5tree, toString_one, mkStepDetail]
  have hls : Flask.extract_workflow_steps c5wf =
      [mkStepDetail "step.email('step-1', () => \x7b\x7d" "step-1" "email"] := by
    simp [Flask.extract_workflow_steps, Flask.step_code, matchedCalls,
      PyExpr.walk, walkAux.eq_def, PyExpr.children, isStepCall, stepAttr,
      extractStepTypes, c5wf, c5tree, toString_one, mkStepDetail]
  have hf : firstStepCode (Fastapi.handle_discover c5map) =
      "step.email('step-1', () => \x7b\x7d)" := by
    simp [Fastapi.handle_discover, Fastapi.extract_workflow_details, hfs,
      hcode, dump_workflow_detail, dump_workflow_step, mkStepDetail,
      schemaBlock, emptyObjectSchema, c5map, firstStepCode, List.lookup]
  have hl : firstStepCode (Flask.handle_discover c5map) =
      "step.email('step-1', () => \x7b\x7d" := by
    simp [Flask.handle_discover, Flask.extract_workflow_details, hls,
      hcode, dump_workflow_detail, dump_workflow_step, mkStepDetail,
      schemaBlock, emptyObjectSchema, c5map, firstStepCode, List.lookup]
  refine ⟨rfl, hf, hl, fun h => ?_⟩
  have h2 := congrArg firstStepCode h
  rw [hf, hl] at h2
  exact absurd h2 (by decide)

/-- The extractor's attr set is the counter's plus `chat`. -/
theorem extractTypes_split : extractStepTypes = countStepTypes ++ ["chat"] := rfl

/-- On nodes that are not `step.chat(...)` calls, the counter's and the
extractor's match predicates agree. -/
theorem isStepCall_congr_no_chat (e : PyExpr)
    (h : isStepCall ["chat"] e = false) :
    isStepCall countStepTypes e = isStepCall extractStepTypes e := by
  cases e with
  | call f args =>
    cases f with
    | attributeOf v attr =>
      cases v with
      | name id =>
        simp only [isStepCall] at h ⊢
        cases hid : (id == "step") with
        | false => simp [hid]
        | true =>
          have hattr : attr ≠ "chat" := by
            intro hc
            rw [hid, hc] at h
            simp [List.contains] at h
          simp [hid, countStepTypes, extractStepTypes, List.contains, hattr]
      | call f2 a2 => rfl
      | attributeOf v2 a2 => rfl
      | constStr s2 => rfl
      | block xs2 => rfl
    | call f2 a2 => rfl
    | name id2 => rfl
    | constStr s2 => rfl
    | block xs2 => rfl
  | attributeOf v a => rfl
  | name id => rfl
  | constStr s => rfl
  | block xs => rfl

/-- Every node the counter matches, the extractor matches too. -/
theorem isStepCall_count_le_extract (e : PyExpr)
    (h : isStepCall countStepTypes e = true) :
    isStepCall extractStepTypes e = true := by
  cases e with
  | call f args =>
    cases f with
    | attributeOf v attr =>
      cases v with
      | name id =>
        simp only [isStepCall] at h ⊢
        rcases Bool.and_eq_true_iff.mp h with ⟨h1, h2⟩
        have hmem : attr ∈ countStepTypes := List.elem_iff.mp h2
        have hmem2 : attr ∈ extractStepTypes := by
          rw [extractTypes_split]
          exact List.mem_append_left _ hmem
        simp only [h1, Bool.true_and]
        simpa using hmem2
      | call f2 a2 => simp [isStepCall] at h
      | attributeOf v2 a2 => simp [isStepCall] at h
      | constStr s2 => simp [isStepCall] at h
      | block xs2 => simp [isStepCall] at h
    | call f2 a2 => simp [isStepCall] at h
    | name id2 => simp [isStepCall] at h
    | constStr s2 => simp [isStepCall] at h
    | block xs2 => simp [isStepCall] at h
  | attributeOf v a => simp [isStepCall] at h
  | name id => simp [isStepCall] at h
  | constStr s => simp [isStepCall] at h
  | block xs => simp [isStepCall] at h

/-- The handler AST of the C6 witness: one `step.email(...)` call, so no
chat step anywhere. -/
def c6oktree : PyExpr :=
  .block [.call (.attributeOf (.name "step") "email") [.constStr "hello"]]

/-- The C6 witness workflow. -/
def c6okwf : IntroWorkflow :=
  ⟨.available "def handler(payload, step):\n    step.email('hello', resolver)\n" (.tree c6oktree)⟩

/-- C6 amended: the step counter agrees with the number of extracted step
records for every workflow whose walked handler source contains no
`step.chat(...)` call — in general the counter undercounts, `count ≤
records` — and under the same no-chat condition on a whole workflow map
the health-check steps total equals the discover step-record total. -/
theorem count_steps_agrees_without_chat (w : IntroWorkflow)
    (m : List (String × IntroWorkflow))
    (hw : ∀ e ∈ introWalk w, isStepCall ["chat"] e = false)
    (hm : ∀ p ∈ m, ∀ e ∈ introWalk p.2, isStepCall ["chat"] e = false) :
    Common.count_steps_in_workflow w = (Common.extract_workflow_steps w).length ∧
    (∀ w', Common.count_steps_in_workflow w' ≤
      (Common.extract_workflow_steps w').length) ∧
    (m.map fun p => (Common.count_steps_in_workflow p.2 : Int)).sum =
      (m.map fun p => ((Common.extract_workflow_steps p.2).length : Int)).sum := by
  have hone : ∀ w1 : IntroWorkflow,
      (∀ e ∈ introWalk w1, isStepCall ["chat"] e = false) →
      Common.count_steps_in_workflow w1 =
        (Common.extract_workflow_steps w1).length := by
    intro w1 h1
    cases hs : w1.source with
    | osError =>
      simp [Common.count_steps_in_workflow, Common.extract_workflow_steps, hs]
    | typeError =>
      simp [Common.count_steps_in_workflow, Common.extract_workflow_steps, hs]
    | available text p =>
      cases p with
      | syntaxError =>
        simp [Common.count_steps_in_workflow, Common.extract_workflow_steps, hs]
      | tree t =>
        have h1' : ∀ e ∈ t.walk, isStepCall ["chat"] e = false := by
          intro e he
          exact h1 e (by simp [introWalk, hs, he])
        simp only [Common.count_steps_in_workflow,
          Common.extract_workflow_steps, hs, List.length_map,
          List.enum_length, matchedCalls]
        exact congrArg List.length
          (List.filter_congr fun e he => isStepCall_congr_no_chat e (h1' e he))
  refine ⟨hone w hw, ?_, ?_⟩
  · intro w'
    cases hs : w'.source with
    | osError =>
      simp [Common.count_steps_in_workflow, hs]
    | typeError =>
      simp [Common.count_steps_in_workflow, hs]
    | available text p =>
      cases p with
      | syntaxError => simp [Common.count_steps_in_workflow, hs]
      | tree t =>
        simp only [Common.count_steps_in_workflow,
          Common.extract_workflow_steps, hs, List.length_map,
          List.enum_length, matchedCalls]
        rw [← List.countP_eq_length_filter, ← List.countP_eq_length_filter]
        exact List.countP_mono_left fun e _ h => isStepCall_count_le_extract e h
  · refine congrArg List.sum (List.map_eq_map_iff.mpr fun p hp => ?_)
    exact congrArg (fun n : Nat => (n : Int)) (hone p.2 (hm p hp))

/-- Witness for the amended C6 at a one-email-step workflow. -/
theorem count_steps_agrees_without_chat_witness :
    (∀ e ∈ introWalk c6okwf, isStepCall ["chat"] e = false) ∧
    Common.count_steps_in_workflow c6okwf =
      (Common.extract_workflow_steps c6okwf).length := by
  have hlist : introWalk c6okwf =
      [.block [.call (.attributeOf (.name "step") "email") [.constStr "hello"]],
       .call (.attributeOf (.name "step") "email") [.constStr "hello"],
       .attributeOf (.name "step") "email", .constStr "hello",
       .name "step"] := by
    simp [introWalk, c6okwf, c6oktree, PyExpr.walk, walkAux.eq_def,
      PyExpr.children]
  have hno : ∀ e ∈ introWalk c6okwf, isStepCall ["chat"] e = false := by
    intro e he
    rw [hlist] at he
    fin_cases he <;> rfl
  exact ⟨hno, (count_steps_agrees_without_chat c6okwf [] hno
    (by intro p hp; simp at hp)).1⟩

/-- C6 is false as stated: on a handler with a single `step.chat(...)`
call the counter reports 0 while the extractor reports one record. -/
theorem count_chat_counterexample :
    Common.count_steps_in_workflow c6wf = 0 ∧
    (Common.extract_workflow_steps c6wf).length = 1 ∧
    (0 : Nat) ≠ 1 := by
  refine ⟨?_, ?_, by decide⟩
  · simp [Common.count_steps_in_workflow, c6wf, c6tree, matchedCalls,
      PyExpr.walk, walkAux.eq_def, PyExpr.children, isStepCall,
      countStepTypes]
  · simp [Common.extract_workflow_steps, c6wf, c6tree, matchedCalls,
      PyExpr.walk, walkAux.eq_def, PyExpr.children, isStepCall,
      extractStepTypes]

/-- Unfolding equation of the walker on the empty queue. -/
theorem walkAux_nil : walkAux [] = [] := by rw [walkAux.eq_def]

/-- Unfolding equation of the walker on a non-empty queue. -/
theorem walkAux_cons (e : PyExpr) (rest : List PyExpr) :
    walkAux (e :: rest) = e :: walkAux (rest ++ e.children) := by
  rw [walkAux.eq_def]

/-- `renameStrList` distributes over append. -/
theorem renameStrList_append (sub : String → String) (l1 l2 : List PyExpr) :
    renameStrList sub (l1 ++ l2) =
      renameStrList sub l1 ++ renameStrList sub l2 := by
  induction l1 with
  | nil => rfl
  | cons e es ih => simp [renameStrList, ih]

/-- `renameStrList` is the elementwise map of `renameStr`. -/
theorem renameStrList_eq_map (sub : String → String) (l : List PyExpr) :
    renameStrList sub l = l.map (renameStr sub) := by
  induction l with
  | nil => rfl
  | cons e es ih => simp [renameStrList, ih]

/-- Renaming string literals preserves the child structure. -/
theorem children_rename (sub : String → String) (e : PyExpr) :
    (renameStr sub e).children = renameStrList sub e.children := by
  cases e <;> rfl

/-- The walk of a literal-renamed forest is the renamed walk. -/
theorem walkAux_rename (sub : String → String) (q : List PyExpr) :
    walkAux (renameStrList sub q) = (walkAux q).map (renameStr sub) := by
  generalize hn : PyExpr.sizeList q = n
  induction n using Nat.strong_induction_on generalizing q with
  | _ n ih =>
    cases q with
    | nil => simp [renameStrList, walkAux_nil]
    | cons e rest =>
      subst hn
      rw [show renameStrList sub (e :: rest) =
            renameStr sub e :: renameStrList sub rest from rfl,
        walkAux_cons, walkAux_cons, List.map_cons, children_rename,
        ← renameStrList_append]
      rw [ih (PyExpr.sizeList (rest ++ e.children)) (sizeList_queue_lt e rest)
        (rest ++ e.children) rfl]

/-- Renaming string literals does not change which nodes match the step
pattern (the pattern inspects only call/attribute/name structure). -/
theorem isStepCall_rename (types : List String) (sub : String → String)
    (e : PyExpr) : isStepCall types (renameStr sub e) = isStepCall types e := by
  cases e with
  | call f args =>
    cases f with
    | attributeOf v a =>
      cases v with
      | name id => rfl
      | call f2 a2 => rfl
      | attributeOf v2 a2 => rfl
      | constStr s2 => rfl
      | block xs2 => rfl
    | call f2 a2 => rfl
    | name id2 => rfl
    | constStr s2 => rfl
    | block xs2 => rfl
  | attributeOf v a => rfl
  | name id => rfl
  | constStr s => rfl
  | block xs => rfl

/-- Renaming string literals does not change a node's attr. -/
theorem stepAttr_rename (sub : String → String) (e : PyExpr) :
    stepAttr (renameStr sub e) = stepAttr e := by
  cases e with
  | call f args =>
    cases f with
    | attributeOf v a => rfl
    | call f2 a2 => rfl
    | name id2 => rfl
    | constStr s2 => rfl
    | block xs2 => rfl
  | attributeOf v a => rfl
  | name id => rfl
  | constStr s => rfl
  | block xs => rfl

/-- The matched calls of a literal-renamed tree are the renamed matched
calls of the original. -/
theorem matchedCalls_rename (types : List String) (sub : String → String)
    (t : PyExpr) :
    matchedCalls types (renameStr sub t) =
      (matchedCalls types t).map (renameStr sub) := by
  unfold matchedCalls PyExpr.walk
  rw [show [renameStr sub t] = renameStrList sub [t] from rfl,
    walkAux_rename, List.filter_map]
  exact congrArg _ (List.filter_congr fun e _ => isStepCall_rename types sub e)

/-- The common extractor is invariant under renaming the handler's string
literals. -/
theorem extract_rename_common (sub : String → String) (w : IntroWorkflow) :
    Common.extract_workflow_steps (renameWorkflow sub w) =
      Common.extract_workflow_steps w := by
  cases hs : w.source with
  | osError => simp [renameWorkflow, hs, Common.extract_workflow_steps]
  | typeError => simp [renameWorkflow, hs, Common.extract_workflow_steps]
  | available text p =>
    cases p with
    | syntaxError => simp [renameWorkflow, hs, Common.extract_workflow_steps]
    | tree t =>
      simp only [renameWorkflow, hs, Common.extract_workflow_steps,
        matchedCalls_rename, List.enum_map, List.map_map]
      refine List.map_eq_map_iff.mpr fun p _ => ?_
      simp [Function.comp_def, stepAttr_rename]

/-- The flask extractor is invariant under renaming the handler's string
literals. -/
theorem extract_rename_flask (sub : String → String) (w : IntroWorkflow) :
    Flask.extract_workflow_steps (renameWorkflow sub w) =
      Flask.extract_workflow_steps w := by
  cases hs : w.source with
  | osError => simp [renameWorkflow, hs, Flask.extract_workflow_steps]
  | typeError => simp [renameWorkflow, hs, Flask.extract_workflow_steps]
  | available text p =>
    cases p with
    | syntaxError => simp [renameWorkflow, hs, Flask.extract_workflow_steps]
    | tree t =>
      simp only [renameWorkflow, hs, Flask.extract_workflow_steps,
        matchedCalls_rename, List.enum_map, List.map_map]
      refine List.map_eq_map_iff.mpr fun p _ => ?_
      simp [Function.comp_def, stepAttr_rename]

/-- The common extractor's record at index `i` carries the synthetic id
`step-(i+1)`. -/
theorem extract_get_id_common (w : IntroWorkflow) (i : Nat) (v : Value)
    (hv : (Common.extract_workflow_steps w)[i]? = some v) :
    stepRecordId v = "step-" ++ toString (i + 1) := by
  cases hs : w.source with
  | osError => rw [Common.extract_workflow_steps, hs] at hv; simp at hv
  | typeError => rw [Common.extract_workflow_steps, hs] at hv; simp at hv
  | available text p =>
    cases p with
    | syntaxError => rw [Common.extract_workflow_steps, hs] at hv; simp at hv
    | tree t =>
      rw [Common.extract_workflow_steps, hs] at hv
      simp only [List.getElem?_map, List.getElem?_enum] at hv
      cases hnode : (matchedCalls extractStepTypes t)[i]? with
      | none => rw [hnode] at hv; simp at hv
      | some node =>
        rw [hnode] at hv
        have hv2 : mkStepDetail
            (Common.step_code (stepAttr node) ("step-" ++ toString (i + 1)))
            ("step-" ++ toString (i + 1)) (stepAttr node) = v := by
          simpa using hv
        rw [← hv2]
        simp [stepRecordId, mkStepDetail, List.lookup]

/-- The flask extractor's record at index `i` carries the synthetic id
`step-(i+1)`. -/
theorem extract_get_id_flask (w : IntroWorkflow) (i : Nat) (v : Value)
    (hv : (Flask.extract_workflow_steps w)[i]? = some v) :
    stepRecordId v = "step-" ++ toString (i + 1) := by
  cases hs : w.source with
  | osError => rw [Flask.extract_workflow_steps, hs] at hv; simp at hv
  | typeError => rw [Flask.extract_workflow_steps, hs] at hv; simp at hv
  | available text p =>
    cases p with
    | syntaxError => rw [Flask.extract_workflow_steps, hs] at hv; simp at hv
    | tree t =>
      rw [Flask.extract_workflow_steps, hs] at hv
      simp only [List.getElem?_map, List.getElem?_enum] at hv
      cases hnode : (matchedCalls extractStepTypes t)[i]? with
      | none => rw [hnode] at hv; simp at hv
      | some node =>
        rw [hnode] at hv
        have hv2 : mkStepDetail
            (Flask.step_code (stepAttr node) ("step-" ++ toString (i + 1)))
            ("step-" ++ toString (i + 1)) (stepAttr node) = v := by
          simpa using hv
        rw [← hv2]
        simp [stepRecordId, mkStepDetail, List.lookup]

/-- C10: the discover step records' ids are the synthesized positional
strings `step-1`, `step-2`, ... (position in the walk order of matched
calls), in both the common and the flask extractor, and the extracted
records are invariant under rewriting the string literals — in
particular the real step-id string arguments — of the handler's source. -/
theorem discover_step_ids_synthesized (w : IntroWorkflow)
    (sub : String → String) (i j : Nat) (v u : Value)
    (hi : (Common.extract_workflow_steps w)[i]? = some v)
    (hj : (Flask.extract_workflow_steps w)[j]? = some u) :
    stepRecordId v = "step-" ++ toString (i + 1) ∧
    stepRecordId u = "step-" ++ toString (j + 1) ∧
    Common.extract_workflow_steps (renameWorkflow sub w) =
      Common.extract_workflow_steps w ∧
    Flask.extract_workflow_steps (renameWorkflow sub w) =
      Flask.extract_workflow_steps w :=
  ⟨extract_get_id_common w i v hi, extract_get_id_flask w j u hj,
   extract_rename_common sub w, extract_rename_flask sub w⟩

/-- The handler AST of the C10 witness: one `step.email(...)` call whose
real step id literal is `my-real-id`. -/
def c10tree : PyExpr :=
  .block [.call (.attributeOf (.name "step") "email") [.constStr "my-real-id"]]

/-- The C10 witness workflow. -/
def c10wf : IntroWorkflow :=
  ⟨.available "def handler(payload, step):\n    step.email('my-real-id', resolver)\n" (.tree c10tree)⟩

/-- Witness for C10 at a one-step workflow: the first record exists and
its id is the synthetic `step-1`, not the real id `my-real-id`. -/
theorem discover_step_ids_synthesized_witness :
    (Common.extract_workflow_steps c10wf)[0]? =
      some (mkStepDetail "step.email('step-1', () => \x7b\x7d)" "step-1" "email") ∧
    (Flask.extract_workflow_steps c10wf)[0]? =
      some (mkStepDetail "step.email('step-1', () => \x7b\x7d" "step-1" "email") ∧
    (stepRecordId (mkStepDetail "step.email('step-1', () => \x7b\x7d)" "step-1" "email") =
        "step-" ++ toString (0 + 1) ∧
     stepRecordId (mkStepDetail "step.email('step-1', () => \x7b\x7d" "step-1" "email") =
        "step-" ++ toString (0 + 1) ∧
     Common.extract_workflow_steps (renameWorkflow (fun _ => "other") c10wf) =
       Common.extract_workflow_steps c10wf ∧
     Flask.extract_workflow_steps (renameWorkflow (fun _ => "other") c10wf) =
       Flask.extract_workflow_steps c10wf) := by
  have hc : (Common.extract_workflow_steps c10wf)[0]? =
      some (mkStepDetail "step.email('step-1', () => \x7b\x7d)" "step-1" "email") := by
    have hsteps : Common.extract_workflow_steps c10wf =
        [mkStepDetail "step.email('step-1', () => \x7b\x7d)" "step-1" "email"] := by
      simp [Common.extract_workflow_steps, Common.step_code, matchedCalls,
        PyExpr.walk, walkAux.eq_def, PyExpr.children, isStepCall, stepAttr,
        extractStepTypes, c10wf, c10tree, toString_one, mkStepDetail]
    rw [hsteps]
    rfl
  have hf : (Flask.extract_workflow_steps c10wf)[0]? =
      some (mkStepDetail "step.email('step-1', () => \x7b\x7d" "step-1" "email") := by
    have hsteps : Flask.extract_workflow_steps c10wf =
        [mkStepDetail "step.email('step-1', () => \x7b\x7d" "step-1" "email"] := by
      simp [Flask.extract_workflow_steps, Flask.step_code, matchedCalls,
        PyExpr.walk, walkAux.eq_def, PyExpr.children, isStepCall, stepAttr,
        extractStepTypes, c10wf, c10tree, toString_one, mkStepDetail]
    rw [hsteps]
    rfl
  exact ⟨hc, hf,
    discover_step_ids_synthesized c10wf (fun _ => "other") 0 0 _ _ hc hf⟩
